import Mathlib

/-!
Verification of the Gatekeeper firmware core (a Eurorack gate/trigger
processor) against its natural-language specification.  The definitions
below are a shallow embedding of the C sources: 8-bit status words are
rendered as structures of named booleans (one field per documented flag
bit), machine integers become naturals with explicit reduction modulo
2^32 or 2^8 where the C arithmetic can overflow, and the hardware
abstraction layer (pin reads, millisecond timer, EEPROM byte store) is
passed in explicitly as function arguments and function-typed stores.
-/

namespace Gatekeeper

/-- Modulus of the 32-bit unsigned arithmetic used for all timestamps. -/
def UINT32_MOD : Nat := 4294967296

/-- Modulus of 8-bit unsigned arithmetic. -/
def UINT8_MOD : Nat := 256

/-- Unsigned 32-bit subtraction a - b as computed by the C code on uint32_t
values: both operands are reduced mod 2^32 and the difference wraps. -/
def u32sub (a b : Nat) : Nat :=
  (a % UINT32_MOD + UINT32_MOD - b % UINT32_MOD) % UINT32_MOD

/-- Event type, from lib/events/events.h (enum Event). -/
inductive Event where
  | EVT_NONE
  | EVT_A_PRESS
  | EVT_B_PRESS
  | EVT_CV_RISE
  | EVT_CV_FALL
  | EVT_A_TAP
  | EVT_A_RELEASE
  | EVT_B_TAP
  | EVT_B_RELEASE
  | EVT_A_HOLD
  | EVT_B_HOLD
  | EVT_MENU_TOGGLE
  | EVT_MODE_NEXT
  | EVT_TIMEOUT
  deriving DecidableEq, Repr

/-- Numeric value of each event in the C enum (EVT_NONE = 0, ...).  The
generic FSM engine stores events as uint8_t, so transition tables below
use these numbers. -/
def Event.toNat : Event → Nat
  | .EVT_NONE => 0
  | .EVT_A_PRESS => 1
  | .EVT_B_PRESS => 2
  | .EVT_CV_RISE => 3
  | .EVT_CV_FALL => 4
  | .EVT_A_TAP => 5
  | .EVT_A_RELEASE => 6
  | .EVT_B_TAP => 7
  | .EVT_B_RELEASE => 8
  | .EVT_A_HOLD => 9
  | .EVT_B_HOLD => 10
  | .EVT_MENU_TOGGLE => 11
  | .EVT_MODE_NEXT => 12
  | .EVT_TIMEOUT => 13

/-- Hold threshold from events.h (EP_HOLD_THRESHOLD_MS). -/
def EP_HOLD_THRESHOLD_MS : Nat := 500

/-- Event-processor state, from lib/events/events.h (struct EventProcessor).
The uint8_t status word is rendered one named boolean per flag bit
(EP_A_PRESSED .. EP_CV_LAST), and the uint8_t ext_status word likewise
(EP_COMPOUND_FIRED, EP_B_TOUCHED_DURING_A). -/
structure EventProcessor where
  a_pressed : Bool
  a_last : Bool
  a_hold : Bool
  b_pressed : Bool
  b_last : Bool
  b_hold : Bool
  cv_state : Bool
  cv_last : Bool
  compound_fired : Bool
  b_touched_during_a : Bool
  a_press_time : Nat
  b_press_time : Nat
  deriving DecidableEq, Repr

/-- Input bundle for one event-processor update, from events.h
(struct EventInput). -/
structure EventInput where
  button_a : Bool
  button_b : Bool
  cv_in : Bool
  current_time : Nat
  deriving DecidableEq, Repr

/-- event_processor_init from src/events/events.c: clears both status
words and both timestamps. -/
def event_processor_init : EventProcessor :=
  { a_pressed := false, a_last := false, a_hold := false
    b_pressed := false, b_last := false, b_hold := false
    cv_state := false, cv_last := false
    compound_fired := false, b_touched_during_a := false
    a_press_time := 0, b_press_time := 0 }

/-- event_processor_update from src/events/events.c, translated branch by
branch.  Returns the emitted event and the updated state. -/
def event_processor_update (ep0 : EventProcessor) (input : EventInput) :
    Event × EventProcessor :=
  let now := input.current_time
  -- Update current input states
  let ep := { ep0 with a_pressed := input.button_a,
                       b_pressed := input.button_b,
                       cv_state := input.cv_in }
  -- Button A edge detection
  let a_pressed := ep.a_pressed
  let a_was_pressed := ep.a_last
  let (event, ep) :=
    if a_pressed && !a_was_pressed then
      -- Rising edge (press)
      (Event.EVT_A_PRESS,
       { ep with a_press_time := now % UINT32_MOD, a_hold := false,
                 b_touched_during_a := false })
    else if !a_pressed && a_was_pressed then
      -- Falling edge (release)
      let event :=
        if !ep.a_hold then Event.EVT_A_TAP
        else if !ep.b_touched_during_a && !ep.compound_fired then
          Event.EVT_MODE_NEXT
        else Event.EVT_A_RELEASE
      (event, { ep with a_hold := false })
    else if a_pressed && !ep.a_hold then
      -- Hold detection (while still pressed)
      if u32sub now ep.a_press_time ≥ EP_HOLD_THRESHOLD_MS then
        if !ep.b_pressed then (Event.EVT_A_HOLD, { ep with a_hold := true })
        else (Event.EVT_NONE, { ep with a_hold := true })
      else (Event.EVT_NONE, ep)
    else (Event.EVT_NONE, ep)
  -- Button B edge detection
  let b_pressed := ep.b_pressed
  let b_was_pressed := ep.b_last
  let (event, ep) :=
    if b_pressed && !b_was_pressed then
      -- Rising edge (press); track B press during A hold
      let ep := { ep with b_press_time := now % UINT32_MOD, b_hold := false,
                          b_touched_during_a :=
                            ep.b_touched_during_a || ep.a_hold }
      (if event = Event.EVT_NONE then Event.EVT_B_PRESS else event, ep)
    else if !b_pressed && b_was_pressed then
      -- Falling edge (release)
      let event :=
        if event = Event.EVT_NONE then
          if !ep.b_hold then Event.EVT_B_TAP else Event.EVT_B_RELEASE
        else event
      (event, { ep with b_hold := false })
    else if b_pressed && !ep.b_hold then
      -- Hold detection (while still pressed)
      if u32sub now ep.b_press_time ≥ EP_HOLD_THRESHOLD_MS then
        (if event = Event.EVT_NONE then Event.EVT_B_HOLD else event,
         { ep with b_hold := true })
      else (event, ep)
    else (event, ep)
  -- Compound gesture detection: B just reached hold while A is pressed,
  -- and A was pressed first; only fire once per gesture
  let (event, ep) :=
    if !ep.compound_fired then
      if event = Event.EVT_B_HOLD ∧ ep.a_pressed
          ∧ ep.a_press_time < ep.b_press_time then
        (Event.EVT_MENU_TOGGLE, { ep with compound_fired := true })
      else (event, ep)
    else (event, ep)
  -- Clear compound fired flag when both buttons are released
  let ep :=
    if !a_pressed && !b_pressed then { ep with compound_fired := false }
    else ep
  -- CV edge detection
  let cv_high := ep.cv_state
  let cv_was_high := ep.cv_last
  let event :=
    if event = Event.EVT_NONE then
      if cv_high && !cv_was_high then Event.EVT_CV_RISE
      else if !cv_high && cv_was_high then Event.EVT_CV_FALL
      else event
    else event
  -- Update last states for next cycle
  let ep := { ep with a_last := a_pressed, b_last := b_pressed,
                      cv_last := cv_high }
  (event, ep)

/-- Run the event processor over a list of per-tick inputs, collecting the
emitted events and the final state. -/
def ep_run : EventProcessor → List EventInput → List Event × EventProcessor
  | ep, [] => ([], ep)
  | ep, i :: is =>
    let (e, ep1) := event_processor_update ep i
    let (es, epf) := ep_run ep1 is
    (e :: es, epf)

/-- CV-input hysteresis state, from lib/input/cv_input.h (struct CVInput). -/
structure CVInput where
  high_threshold : Nat
  low_threshold : Nat
  last_adc_value : Nat
  current_state : Bool
  deriving DecidableEq, Repr

/-- Default thresholds from cv_input.h (CV_DEFAULT_HIGH_THRESHOLD,
CV_DEFAULT_LOW_THRESHOLD). -/
def CV_DEFAULT_HIGH_THRESHOLD : Nat := 128

/-- Default low threshold (77 ≈ 1.5 V). -/
def CV_DEFAULT_LOW_THRESHOLD : Nat := 77

/-- cv_input_init_custom from lib/input/cv_input.c. -/
def cv_input_init_custom (high_threshold low_threshold : Nat) : CVInput :=
  { high_threshold := high_threshold, low_threshold := low_threshold
    last_adc_value := 0, current_state := false }

/-- cv_input_init from lib/input/cv_input.c: defaults per ADR-004. -/
def cv_input_init : CVInput :=
  cv_input_init_custom CV_DEFAULT_HIGH_THRESHOLD CV_DEFAULT_LOW_THRESHOLD

/-- cv_input_update from lib/input/cv_input.c: Schmitt-trigger hysteresis,
strict comparisons on both thresholds. -/
def cv_input_update (cv : CVInput) (adc_value : Nat) : CVInput :=
  let cv := { cv with last_adc_value := adc_value }
  if cv.current_state then
    -- Currently HIGH - need to drop below low_threshold to go LOW
    if adc_value < cv.low_threshold then { cv with current_state := false }
    else cv
  else
    -- Currently LOW - need to rise above high_threshold to go HIGH
    if adc_value > cv.high_threshold then { cv with current_state := true }
    else cv

/-- Iterate cv_input_update over a list of ADC samples, collecting the
digital level after each sample. -/
def cv_input_run : CVInput → List Nat → List Bool
  | _, [] => []
  | cv, a :: as =>
    let cv1 := cv_input_update cv a
    cv1.current_state :: cv_input_run cv1 as

/-- CV-output state, from lib/output/cv_output.h (struct CVOutput).  The
uint8_t status word is rendered one named boolean per flag bit
(CVOUT_STATE, CVOUT_PULSE, CVOUT_LAST_IN); the GPIO pin that mirrors
CVOUT_STATE is not modelled. -/
structure CVOutput where
  state : Bool
  pulse : Bool
  last_in : Bool
  pulse_start : Nat
  deriving DecidableEq, Repr

/-- Pulse duration from cv_output.h (PULSE_DURATION_MS). -/
def PULSE_DURATION_MS : Nat := 10

/-- cv_output_init from lib/output/cv_output.c: status and pulse_start
cleared. -/
def cv_output_init : CVOutput :=
  { state := false, pulse := false, last_in := false, pulse_start := 0 }

/-- cv_output_update_pulse from lib/output/cv_output.c.  A rising edge of
the input latches pulse_start to the current millisecond counter and
drives the output high; afterwards the pulse-expiry check clears the
output once the duration has elapsed since pulse_start.  The two
p_hal->millis() calls of the C body are the same tick value now. -/
def cv_output_update_pulse (cv : CVOutput) (input_state : Bool) (now : Nat) :
    Bool × CVOutput :=
  let last_input := cv.last_in
  -- Rising edge triggers new pulse
  let cv :=
    if input_state && !last_input then
      { cv with pulse_start := now % UINT32_MOD, pulse := true, state := true }
    else cv
  -- Check pulse expiry
  let cv :=
    if cv.pulse then
      if u32sub now cv.pulse_start ≥ PULSE_DURATION_MS then
        { cv with pulse := false, state := false }
      else cv
    else cv
  let cv := { cv with last_in := input_state }
  (cv.state, cv)

/-- Run cv_output_update_pulse over a list of (input level, tick time)
pairs, collecting the output level after each tick. -/
def cv_output_run : CVOutput → List (Bool × Nat) → List Bool
  | _, [] => []
  | cv, (inp, t) :: rest =>
    let (out, cv1) := cv_output_update_pulse cv inp t
    out :: cv_output_run cv1 rest

/-- Edge debounce guard from lib/input/button.h (EDGE_DEBOUNCE_MS). -/
def EDGE_DEBOUNCE_MS : Nat := 5

/-- Tap window from button.h (TAP_TIMEOUT_MS). -/
def TAP_TIMEOUT_MS : Nat := 500

/-- Taps required for the legacy config gesture (TAPS_TO_CHANGE). -/
def TAPS_TO_CHANGE : Nat := 5

/-- Hold duration of the legacy config gesture (HOLD_TIME_MS). -/
def HOLD_TIME_MS : Nat := 1000

/-- Debounced-button state, from lib/input/button.h (struct Button).  The
uint8_t status word is rendered one named boolean per flag bit (BTN_RAW,
BTN_PRESSED, BTN_LAST, BTN_RISE, BTN_FALL, BTN_CONFIG, BTN_COUNTING);
the bound pin number is not modelled (the raw sample is an argument). -/
structure Button where
  raw : Bool
  pressed : Bool
  last : Bool
  rise : Bool
  fall : Bool
  config : Bool
  counting : Bool
  tap_count : Nat
  last_rise_time : Nat
  last_fall_time : Nat
  last_tap_time : Nat
  deriving DecidableEq, Repr

/-- button_reset from lib/input/button.h: all flags and timers cleared. -/
def button_reset : Button :=
  { raw := false, pressed := false, last := false, rise := false
    fall := false, config := false, counting := false
    tap_count := 0, last_rise_time := 0, last_fall_time := 0
    last_tap_time := 0 }

/-- button_has_rising_edge from lib/input/button.h: raw high, previous
debounced state low, and strictly more than EDGE_DEBOUNCE_MS elapsed
since the last rising edge; on detection the last-rising-edge time is
re-latched. -/
def button_has_rising_edge (b : Button) (now : Nat) : Bool × Button :=
  if b.raw && !b.last then
    if u32sub now b.last_rise_time > EDGE_DEBOUNCE_MS then
      (true, { b with last_rise_time := now % UINT32_MOD })
    else (false, b)
  else (false, b)

/-- button_has_falling_edge from lib/input/button.h, symmetric with its
own timer. -/
def button_has_falling_edge (b : Button) (now : Nat) : Bool × Button :=
  if !b.raw && b.last then
    if u32sub now b.last_fall_time > EDGE_DEBOUNCE_MS then
      (true, { b with last_fall_time := now % UINT32_MOD })
    else (false, b)
  else (false, b)

/-- button_detect_config_action from lib/input/button.h (legacy 5-tap +
hold gesture); called unconditionally by button_update. -/
def button_detect_config_action (b : Button) (now : Nat) : Bool × Button :=
  -- On rising edge (new press)
  let b :=
    if b.rise then
      let b :=
        if u32sub now b.last_tap_time ≤ TAP_TIMEOUT_MS then
          { b with tap_count := (b.tap_count + 1) % UINT8_MOD }
        else { b with tap_count := 1 }
      let b := { b with last_tap_time := now % UINT32_MOD }
      if b.tap_count ≥ TAPS_TO_CHANGE then { b with counting := true } else b
    else b
  -- Check for hold on the Nth tap
  let (action_detected, b) :=
    if b.counting && b.pressed then
      if u32sub now b.last_tap_time ≥ HOLD_TIME_MS then
        (true, { b with counting := false, tap_count := 0 })
      else (false, b)
    else (false, b)
  -- Reset if button released before hold completed
  let b :=
    if !b.pressed then
      let b := { b with counting := false }
      if u32sub now b.last_tap_time > TAP_TIMEOUT_MS then
        { b with tap_count := 0 }
      else b
    else b
  (action_detected, b)

/-- button_update from lib/input/button.h.  rawPin is the active-low pin
sample delivered by the HAL (true = electrically high = released); now is
the millisecond counter. -/
def button_update (b : Button) (rawPin : Bool) (now : Nat) : Button :=
  -- Read raw pin state (active-low: pressed = LOW, so invert)
  let b := { b with raw := !rawPin }
  -- Clear edge flags at start of cycle
  let b := { b with rise := false, fall := false }
  -- Detect rising edge (button press)
  let (r, b) := button_has_rising_edge b now
  let b := if r then { b with rise := true, pressed := true } else b
  -- Detect falling edge (button release)
  let (f, b) := button_has_falling_edge b now
  let b := if f then { b with fall := true, pressed := false } else b
  -- Check if we have requested a mode change
  let (cfg, b) := button_detect_config_action b now
  let b := if cfg then { b with config := true } else b
  -- Update last state to match current pressed state
  { b with last := b.pressed }

/-- Sentinel from fsm.h: event handled without a state change. -/
def FSM_NO_TRANSITION : Nat := 255

/-- Sentinel from fsm.h: matches any current state on the from side. -/
def FSM_ANY_STATE : Nat := 254

/-- State row of the generic FSM engine, from lib/fsm/fsm.h (struct State).
Action function pointers are rendered as optional labels of an abstract
action type α; the coordinator instantiates α with its five actions. -/
structure StateDef (α : Type) where
  id : Nat
  on_enter : Option α
  on_exit : Option α
  on_update : Option α
  deriving DecidableEq, Repr

/-- Transition row, from fsm.h (struct Transition). -/
structure Transition (α : Type) where
  from_state : Nat
  event : Nat
  to_state : Nat
  action : Option α
  deriving DecidableEq, Repr

/-- FSM instance, from fsm.h (struct FSM). -/
structure FSM (α : Type) where
  states : List (StateDef α)
  transitions : List (Transition α)
  current_state : Nat
  initial_state : Nat
  active : Bool
  deriving DecidableEq, Repr

/-- find_state_index from lib/fsm/fsm.c, returning the state row itself. -/
def fsm_find_state (f : FSM α) (state_id : Nat) : Option (StateDef α) :=
  f.states.find? (fun s => s.id = state_id)

/-- Entry-action label of a state, if any (call_entry_action). -/
def fsm_entry_action (f : FSM α) (state_id : Nat) : Option α :=
  (fsm_find_state f state_id).bind (fun s => s.on_enter)

/-- Exit-action label of a state, if any (call_exit_action). -/
def fsm_exit_action (f : FSM α) (state_id : Nat) : Option α :=
  (fsm_find_state f state_id).bind (fun s => s.on_exit)

/-- fsm_init from lib/fsm/fsm.c. -/
def fsm_init (states : List (StateDef α)) (transitions : List (Transition α))
    (initial : Nat) : FSM α :=
  { states := states, transitions := transitions,
    current_state := initial, initial_state := initial, active := false }

/-- fsm_start from lib/fsm/fsm.c: activates and emits the initial state's
entry action. -/
def fsm_start (f : FSM α) : FSM α × List α :=
  let f := { f with active := true }
  (f, (fsm_entry_action f f.current_state).toList)

/-- fsm_process_event from lib/fsm/fsm.c.  The linear table search takes
the first transition whose from side matches the current state (exactly
or via FSM_ANY_STATE) and whose event matches.  Returns whether the state
changed, the updated instance, and the action labels the engine invokes,
in invocation order (exit of the old state, transition action, entry of
the new state).  In the C engine the callbacks run interleaved with the
state change; the caller of this embedding applies them afterwards, which
is equivalent for the coordinator tables because none of their states
carry entry/exit actions and no transition action reads the instance
being stepped mid-transition. -/
def fsm_process_event (f : FSM α) (event : Nat) : Bool × FSM α × List α :=
  if !f.active then (false, f, [])
  else
    match f.transitions.find? (fun t =>
        (t.from_state = f.current_state || t.from_state = FSM_ANY_STATE)
        && t.event = event) with
    | none => (false, f, [])
    | some t =>
      if t.to_state = FSM_NO_TRANSITION then
        -- Action only, no state change
        (false, f, t.action.toList)
      else
        (true, { f with current_state := t.to_state },
         (fsm_exit_action f f.current_state).toList ++ t.action.toList
           ++ (fsm_entry_action f t.to_state).toList)

/-- fsm_get_state from lib/fsm/fsm.c. -/
def fsm_get_state (f : FSM α) : Nat := f.current_state

/-- fsm_set_state from lib/fsm/fsm.c: forces the current state to the
given id, bypassing the transition table; emits the old state's exit
action and the new state's entry action only while the FSM is active. -/
def fsm_set_state (f : FSM α) (state_id : Nat) : FSM α × List α :=
  let acts :=
    if f.active then
      (fsm_exit_action f f.current_state).toList
        ++ (fsm_entry_action f state_id).toList
    else []
  ({ f with current_state := state_id }, acts)

/-- Number of signal-processing modes (states.h, MODE_COUNT). -/
def MODE_COUNT : Nat := 5

/-- Number of menu pages (states.h, PAGE_COUNT). -/
def PAGE_COUNT : Nat := 8

/-- Top-level state ids (states.h, enum TopState). -/
def TOP_PERFORM : Nat := 0

/-- TOP_MENU from states.h. -/
def TOP_MENU : Nat := 1

/-- Mode state ids (states.h, enum ModeState). -/
def MODE_GATE : Nat := 0

/-- MODE_TRIGGER from states.h. -/
def MODE_TRIGGER : Nat := 1

/-- MODE_TOGGLE from states.h. -/
def MODE_TOGGLE : Nat := 2

/-- MODE_DIVIDE from states.h. -/
def MODE_DIVIDE : Nat := 3

/-- MODE_CYCLE from states.h. -/
def MODE_CYCLE : Nat := 4

/-- Menu page ids (states.h, enum MenuPage). -/
def PAGE_GATE_CV : Nat := 0

/-- PAGE_TRIGGER_BEHAVIOR from states.h. -/
def PAGE_TRIGGER_BEHAVIOR : Nat := 1

/-- PAGE_TRIGGER_PULSE_LEN from states.h. -/
def PAGE_TRIGGER_PULSE_LEN : Nat := 2

/-- PAGE_TOGGLE_BEHAVIOR from states.h. -/
def PAGE_TOGGLE_BEHAVIOR : Nat := 3

/-- PAGE_DIVIDE_DIVISOR from states.h. -/
def PAGE_DIVIDE_DIVISOR : Nat := 4

/-- PAGE_CYCLE_PATTERN from states.h. -/
def PAGE_CYCLE_PATTERN : Nat := 5

/-- PAGE_CV_GLOBAL from states.h. -/
def PAGE_CV_GLOBAL : Nat := 6

/-- PAGE_MENU_TIMEOUT from states.h. -/
def PAGE_MENU_TIMEOUT : Nat := 7

/-- mode_to_start_page from states.h: context-aware menu entry page. -/
def mode_to_start_page (mode : Nat) : Nat :=
  if mode = MODE_GATE then PAGE_GATE_CV
  else if mode = MODE_TRIGGER then PAGE_TRIGGER_BEHAVIOR
  else if mode = MODE_TOGGLE then PAGE_TOGGLE_BEHAVIOR
  else if mode = MODE_DIVIDE then PAGE_DIVIDE_DIVISOR
  else if mode = MODE_CYCLE then PAGE_CYCLE_PATTERN
  else PAGE_GATE_CV

/-- Option counts from config/mode_config.h. -/
def TRIGGER_PULSE_COUNT : Nat := 4

/-- TRIGGER_EDGE_COUNT from mode_config.h. -/
def TRIGGER_EDGE_COUNT : Nat := 3

/-- DIVIDE_DIVISOR_COUNT from mode_config.h. -/
def DIVIDE_DIVISOR_COUNT : Nat := 4

/-- CYCLE_TEMPO_COUNT from mode_config.h. -/
def CYCLE_TEMPO_COUNT : Nat := 5

/-- TOGGLE_EDGE_COUNT from mode_config.h. -/
def TOGGLE_EDGE_COUNT : Nat := 2

/-- GATE_A_MODE_COUNT from mode_config.h. -/
def GATE_A_MODE_COUNT : Nat := 2

/-- GATE_A_MODE_MANUAL from mode_config.h. -/
def GATE_A_MODE_MANUAL : Nat := 1

/-- Trigger pulse durations in milliseconds (mode_config.h,
TRIGGER_PULSE_VALUES). -/
def TRIGGER_PULSE_VALUES : List Nat := [10, 50, 100, 1]

/-- Clock divider ratios (mode_config.h, DIVIDE_DIVISOR_VALUES). -/
def DIVIDE_DIVISOR_VALUES : List Nat := [2, 4, 8, 24]

/-- Cycle periods in milliseconds (mode_config.h, CYCLE_PERIOD_VALUES). -/
def CYCLE_PERIOD_VALUES : List Nat := [1000, 750, 600, 500, 375]

/-- Settings record, from app_init.h (struct AppSettings, schema
version 2): eight uint8_t fields. -/
structure AppSettings where
  mode : Nat
  trigger_pulse_idx : Nat
  trigger_edge : Nat
  divide_divisor_idx : Nat
  cycle_tempo_idx : Nat
  toggle_edge : Nat
  gate_a_mode : Nat
  reserved : Nat
  deriving DecidableEq, Repr

/-- The settings record as the byte sequence the C code iterates over
(struct order, eight bytes). -/
def settings_bytes (s : AppSettings) : List Nat :=
  [s.mode, s.trigger_pulse_idx, s.trigger_edge, s.divide_divisor_idx,
   s.cycle_tempo_idx, s.toggle_edge, s.gate_a_mode, s.reserved]

/-- Validation limits in struct order, from app_init.c (SETTINGS_LIMITS);
0 means no validation. -/
def SETTINGS_LIMITS : List Nat :=
  [ MODE_COUNT, TRIGGER_PULSE_COUNT, TRIGGER_EDGE_COUNT,
   DIVIDE_DIVISOR_COUNT, CYCLE_TEMPO_COUNT, TOGGLE_EDGE_COUNT,
   GATE_A_MODE_COUNT, 0]

/-- calculate_checksum from app_init.c: XOR over the eight settings
bytes. -/
def calculate_checksum (s : AppSettings) : Nat :=
  (settings_bytes s).foldl Nat.xor 0

/-- Level-4 range validation loop of load_settings: every field must be
strictly below its limit unless the limit is 0 (no validation). -/
def settings_in_range (s : AppSettings) : Bool :=
  ((settings_bytes s).zip SETTINGS_LIMITS).all
    (fun fl => fl.2 = 0 || fl.1 < fl.2)

/-- EEPROM layout constants from app_init.h. -/
def EEPROM_MAGIC_ADDR : Nat := 0

/-- EEPROM_SCHEMA_ADDR from app_init.h. -/
def EEPROM_SCHEMA_ADDR : Nat := 2

/-- EEPROM_SETTINGS_ADDR from app_init.h. -/
def EEPROM_SETTINGS_ADDR : Nat := 3

/-- EEPROM_CHECKSUM_ADDR from app_init.h. -/
def EEPROM_CHECKSUM_ADDR : Nat := 16

/-- EEPROM_MAGIC_VALUE from app_init.h: the byte pair "GK". -/
def EEPROM_MAGIC_VALUE : Nat := 18251

/-- SETTINGS_SCHEMA_VERSION from app_init.h. -/
def SETTINGS_SCHEMA_VERSION : Nat := 2

/-- The non-volatile byte store of the HAL, address to byte value. -/
def Eeprom : Type := Nat → Nat

/-- eeprom_write_byte of the HAL: stores the low eight bits. -/
def eeprom_write_byte (e : Eeprom) (addr value : Nat) : Eeprom :=
  fun x => if x = addr then value % UINT8_MOD else e x

/-- eeprom_read_byte of the HAL. -/
def eeprom_read_byte (e : Eeprom) (addr : Nat) : Nat := e addr

/-- eeprom_write_word of the HAL: little-endian, low byte at addr. -/
def eeprom_write_word (e : Eeprom) (addr value : Nat) : Eeprom :=
  eeprom_write_byte (eeprom_write_byte e addr (value % UINT8_MOD))
    (addr + 1) (value / UINT8_MOD % UINT8_MOD)

/-- eeprom_read_word of the HAL: low byte at addr, high byte at addr+1. -/
def eeprom_read_word (e : Eeprom) (addr : Nat) : Nat :=
  eeprom_read_byte e addr + UINT8_MOD * eeprom_read_byte e (addr + 1)

/-- Write a list of bytes at consecutive addresses (the settings loop of
app_init_save_settings). -/
def eeprom_write_bytes (e : Eeprom) (addr : Nat) : List Nat → Eeprom
  | [] => e
  | v :: vs => eeprom_write_bytes (eeprom_write_byte e addr v) (addr + 1) vs

/-- app_init_get_defaults from app_init.c: all indices zero. -/
def app_init_get_defaults : AppSettings :=
  { mode := MODE_GATE, trigger_pulse_idx := 0, trigger_edge := 0,
    divide_divisor_idx := 0, cycle_tempo_idx := 0, toggle_edge := 0,
    gate_a_mode := 0, reserved := 0 }

/-- app_init_save_settings from app_init.c: magic word, schema byte,
eight settings bytes, XOR checksum byte. -/
def app_init_save_settings (e : Eeprom) (s : AppSettings) : Eeprom :=
  let e := eeprom_write_word e EEPROM_MAGIC_ADDR EEPROM_MAGIC_VALUE
  let e := eeprom_write_byte e EEPROM_SCHEMA_ADDR SETTINGS_SCHEMA_VERSION
  let e := eeprom_write_bytes e EEPROM_SETTINGS_ADDR (settings_bytes s)
  eeprom_write_byte e EEPROM_CHECKSUM_ADDR (calculate_checksum s)

/-- app_init_clear_eeprom from app_init.c: invalidates the magic word. -/
def app_init_clear_eeprom (e : Eeprom) : Eeprom :=
  eeprom_write_word e EEPROM_MAGIC_ADDR 65535

/-- The settings record as read back from the store by the level-3 loop
of load_settings. -/
def settings_from_eeprom (e : Eeprom) : AppSettings :=
  { mode := eeprom_read_byte e EEPROM_SETTINGS_ADDR
    trigger_pulse_idx := eeprom_read_byte e (EEPROM_SETTINGS_ADDR + 1)
    trigger_edge := eeprom_read_byte e (EEPROM_SETTINGS_ADDR + 2)
    divide_divisor_idx := eeprom_read_byte e (EEPROM_SETTINGS_ADDR + 3)
    cycle_tempo_idx := eeprom_read_byte e (EEPROM_SETTINGS_ADDR + 4)
    toggle_edge := eeprom_read_byte e (EEPROM_SETTINGS_ADDR + 5)
    gate_a_mode := eeprom_read_byte e (EEPROM_SETTINGS_ADDR + 6)
    reserved := eeprom_read_byte e (EEPROM_SETTINGS_ADDR + 7) }

/-- load_settings from app_init.c: four validation levels, in order,
short-circuiting on the first failure (magic, schema, checksum, ranges).
Returns the loaded record on success. -/
def load_settings (e : Eeprom) : Option AppSettings :=
  -- Level 1: Check magic number
  if eeprom_read_word e EEPROM_MAGIC_ADDR ≠ EEPROM_MAGIC_VALUE then none
  -- Level 2: Check schema version
  else if eeprom_read_byte e EEPROM_SCHEMA_ADDR ≠ SETTINGS_SCHEMA_VERSION then
    none
  else
    -- Level 3: Read settings and verify checksum
    let s := settings_from_eeprom e
    if eeprom_read_byte e EEPROM_CHECKSUM_ADDR ≠ calculate_checksum s then
      none
    -- Level 4: Range validation using the limits table
    else if !settings_in_range s then none
    else some s

/-- Initialization result codes from app_init.h (enum AppInitResult). -/
inductive AppInitResult where
  | APP_INIT_OK
  | APP_INIT_OK_DEFAULTS
  | APP_INIT_OK_FACTORY_RESET
  deriving DecidableEq, Repr

/-- app_init_check_factory_reset from app_init.c, with the button levels
modelled as constant over the startup window (the C code first verifies
the millisecond timer advances, then requires both active-low buttons
pressed at the initial sample and at every poll of the 3-second loop;
with constant levels the loop completes exactly when both stay pressed
and the timer advances). -/
def app_init_check_factory_reset
    (timer_advances a_pressed b_pressed : Bool) : Bool :=
  if !timer_advances then false
  else if !a_pressed || !b_pressed then false
  else true

/-- app_init_run from app_init.c: factory reset when requested, otherwise
load-or-default.  Returns the result code, the populated settings record,
and the possibly rewritten store. -/
def app_init_run (e : Eeprom)
    (timer_advances a_pressed b_pressed : Bool) :
    AppInitResult × AppSettings × Eeprom :=
  if app_init_check_factory_reset timer_advances a_pressed b_pressed then
    let e := app_init_clear_eeprom e
    let s := app_init_get_defaults
    let e := app_init_save_settings e s
    (AppInitResult.APP_INIT_OK_FACTORY_RESET, s, e)
  else
    match load_settings e with
    | some s => (AppInitResult.APP_INIT_OK, s, e)
    | none => (AppInitResult.APP_INIT_OK_DEFAULTS, app_init_get_defaults, e)

/-- Menu inactivity timeout from core/coordinator.h (MENU_TIMEOUT_MS). -/
def MENU_TIMEOUT_MS : Nat := 60000

/-- The five coordinator action functions wired into the FSM tables of
src/core/coordinator.c, as labels. -/
inductive CoordAction where
  | enter_menu
  | exit_menu
  | next_mode
  | next_page
  | cycle_value
  deriving DecidableEq, Repr

/-- Mode-handler context union from src/modes/mode_handlers.h
(union ModeContext), rendered as a tagged variant per mode. -/
inductive ModeContext where
  | gate (output_state : Bool)
  | trigger (output_state last_input : Bool) (pulse_start : Nat)
      (pulse_duration_ms : Nat)
  | toggle (output_state last_input : Bool)
  | divide (output_state last_input : Bool) (counter divisor : Nat)
      (pulse_start : Nat)
  | cycle (output_state running : Bool) (last_toggle : Nat)
      (period_ms : Nat) (phase : Nat)
  deriving DecidableEq, Repr

/-- Modelled from the spec: mode_handler_init is declared in
src/modes/mode_handlers.h but mode_handlers.c is not under src/.
Per spec section 4.6, init builds a fresh variant for the given mode with
output low and the mode parameters looked up from the settings indices
(trigger pulse table, divide divisor table, cycle period table). -/
def mode_handler_init (mode : Nat) (settings : Option AppSettings) :
    ModeContext :=
  let s := settings.getD app_init_get_defaults
  if mode = MODE_GATE then .gate false
  else if mode = MODE_TRIGGER then
    .trigger false false 0 ((TRIGGER_PULSE_VALUES.getD s.trigger_pulse_idx 10))
  else if mode = MODE_TOGGLE then .toggle false false
  else if mode = MODE_DIVIDE then
    .divide false false 0 (DIVIDE_DIVISOR_VALUES.getD s.divide_divisor_idx 2) 0
  else if mode = MODE_CYCLE then
    .cycle false true 0 (CYCLE_PERIOD_VALUES.getD s.cycle_tempo_idx 1000) 0
  else .gate false

/-- Modelled from the spec: mode_handler_process (mode_handlers.c is not
under src/).  Per spec section 4.6: gate passes the input through;
trigger latches a fixed-duration pulse on a rising edge and clears it
once the duration has elapsed; toggle flips on a rising edge; divide
counts rising edges modulo the divisor and emits a short pulse when the
counter returns to zero; cycle free-runs, toggling every half period and
exposing a phase byte.  Returns the updated context and the output bit. -/
def mode_handler_process (mode : Nat) (ctx : ModeContext) (input : Bool)
    (now : Nat) : ModeContext × Bool :=
  if mode = MODE_GATE then (.gate input, input)
  else if mode = MODE_TRIGGER then
    match ctx with
    | .trigger out last ps dur =>
      let (out, ps) := if input && !last then (true, now % UINT32_MOD)
                       else (out, ps)
      let out := if out && u32sub now ps ≥ dur then false else out
      (.trigger out input ps dur, out)
    | c => (c, false)
  else if mode = MODE_TOGGLE then
    match ctx with
    | .toggle out last =>
      let out := if input && !last then !out else out
      (.toggle out input, out)
    | c => (c, false)
  else if mode = MODE_DIVIDE then
    match ctx with
    | .divide out last cnt dvr ps =>
      let (out, cnt, ps) :=
        if input && !last then
          let cnt := (cnt + 1) % UINT8_MOD
          if cnt % dvr = 0 then (true, cnt, now % UINT32_MOD)
          else (out, cnt, ps)
        else (out, cnt, ps)
      let out := if out && u32sub now ps ≥ PULSE_DURATION_MS then false
                 else out
      (.divide out input cnt dvr ps, out)
    | c => (c, false)
  else if mode = MODE_CYCLE then
    match ctx with
    | .cycle out running lt period phase =>
      let half := period / 2
      let (out, lt) :=
        if running && u32sub now lt ≥ half then (!out, now % UINT32_MOD)
        else (out, lt)
      let phase := if half = 0 then phase else u32sub now lt * 255 / half % UINT8_MOD
      (.cycle out running lt period phase, out)
    | c => (c, false)
  else (ctx, false)

/-- Top-level state table from src/core/coordinator.c (top_states): no
entry/exit/update actions. -/
def top_states : List (StateDef CoordAction) :=
  [ ⟨TOP_PERFORM, none, none, none⟩, ⟨TOP_MENU, none, none, none⟩ ]

/-- Mode state table from coordinator.c (mode_states). -/
def mode_states : List (StateDef CoordAction) :=
  [ ⟨MODE_GATE, none, none, none⟩, ⟨MODE_TRIGGER, none, none, none⟩,
    ⟨MODE_TOGGLE, none, none, none⟩, ⟨MODE_DIVIDE, none, none, none⟩,
    ⟨MODE_CYCLE, none, none, none⟩ ]

/-- Menu page state table from coordinator.c (menu_states). -/
def menu_states : List (StateDef CoordAction) :=
  [ ⟨PAGE_GATE_CV, none, none, none⟩, ⟨PAGE_TRIGGER_BEHAVIOR, none, none, none⟩,
    ⟨PAGE_TRIGGER_PULSE_LEN, none, none, none⟩,
    ⟨PAGE_TOGGLE_BEHAVIOR, none, none, none⟩,
    ⟨PAGE_DIVIDE_DIVISOR, none, none, none⟩,
    ⟨PAGE_CYCLE_PATTERN, none, none, none⟩,
    ⟨PAGE_CV_GLOBAL, none, none, none⟩,
    ⟨PAGE_MENU_TIMEOUT, none, none, none⟩ ]

/-- Top-level transition table from src/core/coordinator.c
(top_transitions): menu toggle in both directions and menu timeout.
These three rows are the whole table in the source. -/
def top_transitions : List (Transition CoordAction) :=
  [ ⟨TOP_PERFORM, Event.EVT_MENU_TOGGLE.toNat, TOP_MENU, some .enter_menu⟩,
    ⟨TOP_MENU, Event.EVT_MENU_TOGGLE.toNat, TOP_PERFORM, some .exit_menu⟩,
    ⟨TOP_MENU, Event.EVT_TIMEOUT.toNat, TOP_PERFORM, some .exit_menu⟩ ]

/-- Mode transition table from coordinator.c (mode_transitions). -/
def mode_transitions : List (Transition CoordAction) :=
  [ ⟨FSM_ANY_STATE, Event.EVT_MODE_NEXT.toNat, FSM_NO_TRANSITION,
      some .next_mode⟩ ]

/-- Menu transition table from coordinator.c (menu_transitions). -/
def menu_transitions : List (Transition CoordAction) :=
  [ ⟨FSM_ANY_STATE, Event.EVT_A_TAP.toNat, FSM_NO_TRANSITION, some .next_page⟩,
    ⟨FSM_ANY_STATE, Event.EVT_B_TAP.toNat, FSM_NO_TRANSITION,
      some .cycle_value⟩ ]

/-- Coordinator state, from src/core/coordinator.h (struct Coordinator).
The externally owned settings record shared by pointer is carried as an
optional field (none renders a NULL pointer). -/
structure Coordinator where
  top_fsm : FSM CoordAction
  mode_fsm : FSM CoordAction
  menu_fsm : FSM CoordAction
  events : EventProcessor
  cv_input : CVInput
  menu_entry_mode : Nat
  menu_enter_time : Nat
  last_activity : Nat
  settings : Option AppSettings
  mode_ctx : ModeContext
  output_state : Bool
  deriving DecidableEq, Repr

/-- action_enter_menu from src/core/coordinator.c: record the entry mode
and times, then jump the menu FSM to the mode's start page through
fsm_set_state (the menu states carry no entry/exit actions, so the
emitted action list is discarded as empty). -/
def action_enter_menu (c : Coordinator) (now : Nat) : Coordinator :=
  let c := { c with menu_entry_mode := fsm_get_state c.mode_fsm,
                    menu_enter_time := now % UINT32_MOD,
                    last_activity := now % UINT32_MOD }
  let start_page := mode_to_start_page c.menu_entry_mode
  { c with menu_fsm := (fsm_set_state c.menu_fsm start_page).1 }

/-- action_exit_menu from coordinator.c: copy the current mode ordinal
into the settings record and persist it. -/
def action_exit_menu (c : Coordinator) (e : Eeprom) : Coordinator × Eeprom :=
  match c.settings with
  | none => (c, e)
  | some s =>
    let s := { s with mode := fsm_get_state c.mode_fsm }
    ({ c with settings := some s }, app_init_save_settings e s)

/-- action_next_mode from coordinator.c: advance the mode FSM to the next
mode ordinal through fsm_set_state, reinitialize the mode context, and
refresh the activity timestamp. -/
def action_next_mode (c : Coordinator) (now : Nat) : Coordinator :=
  let current := fsm_get_state c.mode_fsm
  let next := (current + 1) % MODE_COUNT
  let c := { c with mode_fsm := (fsm_set_state c.mode_fsm next).1 }
  { c with mode_ctx := mode_handler_init next c.settings,
           last_activity := now % UINT32_MOD }

/-- action_next_page from coordinator.c: advance the menu FSM to the next
page through fsm_set_state and refresh the activity timestamp. -/
def action_next_page (c : Coordinator) (now : Nat) : Coordinator :=
  let current := fsm_get_state c.menu_fsm
  let next := (current + 1) % PAGE_COUNT
  let c := { c with menu_fsm := (fsm_set_state c.menu_fsm next).1 }
  { c with last_activity := now % UINT32_MOD }

/-- action_cycle_value from coordinator.c: advance the setting owned by
the current page modulo its option count, reinitializing the mode context
when the changed setting governs the current mode. -/
def action_cycle_value (c : Coordinator) (now : Nat) : Coordinator :=
  match c.settings with
  | none => c
  | some s =>
    let page := fsm_get_state c.menu_fsm
    let current_mode := fsm_get_state c.mode_fsm
    let (s, reinit_needed) :=
      if page = PAGE_GATE_CV then
        ({ s with gate_a_mode := (s.gate_a_mode + 1) % GATE_A_MODE_COUNT },
         decide (current_mode = MODE_GATE))
      else if page = PAGE_TRIGGER_BEHAVIOR then
        ({ s with trigger_edge := (s.trigger_edge + 1) % TRIGGER_EDGE_COUNT },
         decide (current_mode = MODE_TRIGGER))
      else if page = PAGE_TRIGGER_PULSE_LEN then
        ({ s with trigger_pulse_idx :=
             (s.trigger_pulse_idx + 1) % TRIGGER_PULSE_COUNT },
         decide (current_mode = MODE_TRIGGER))
      else if page = PAGE_TOGGLE_BEHAVIOR then
        ({ s with toggle_edge := (s.toggle_edge + 1) % TOGGLE_EDGE_COUNT },
         decide (current_mode = MODE_TOGGLE))
      else if page = PAGE_DIVIDE_DIVISOR then
        ({ s with divide_divisor_idx :=
             (s.divide_divisor_idx + 1) % DIVIDE_DIVISOR_COUNT },
         decide (current_mode = MODE_DIVIDE))
      else if page = PAGE_CYCLE_PATTERN then
        ({ s with cycle_tempo_idx :=
             (s.cycle_tempo_idx + 1) % CYCLE_TEMPO_COUNT },
         decide (current_mode = MODE_CYCLE))
      else (s, false)
    let c := { c with settings := some s }
    let c :=
      if reinit_needed then
        { c with mode_ctx := mode_handler_init current_mode (some s) }
      else c
    { c with last_activity := now % UINT32_MOD }

/-- Dispatch one FSM action label to its implementation (the C engine
calls the function pointer directly). -/
def coord_run_action (a : CoordAction) (c : Coordinator) (e : Eeprom)
    (now : Nat) : Coordinator × Eeprom :=
  match a with
  | .enter_menu => (action_enter_menu c now, e)
  | .exit_menu => action_exit_menu c e
  | .next_mode => (action_next_mode c now, e)
  | .next_page => (action_next_page c now, e)
  | .cycle_value => (action_cycle_value c now, e)

/-- Run a list of emitted action labels in order. -/
def coord_run_actions : List CoordAction → Coordinator → Eeprom → Nat →
    Coordinator × Eeprom
  | [], c, e, _ => (c, e)
  | a :: as, c, e, now =>
    let (c, e) := coord_run_action a c e now
    coord_run_actions as c e now

/-- coordinator_init from src/core/coordinator.c. -/
def coordinator_init (settings : Option AppSettings) : Coordinator :=
  { top_fsm := fsm_init top_states top_transitions TOP_PERFORM
    mode_fsm := fsm_init mode_states mode_transitions MODE_GATE
    menu_fsm := fsm_init menu_states menu_transitions PAGE_GATE_CV
    events := event_processor_init
    cv_input := cv_input_init
    menu_entry_mode := MODE_GATE
    menu_enter_time := 0
    last_activity := 0
    settings := settings
    mode_ctx := mode_handler_init MODE_GATE settings
    output_state := false }

/-- coordinator_start from coordinator.c: activates all three FSMs (their
states carry no entry actions, so the emitted lists are empty) and
latches the activity time. -/
def coordinator_start (c : Coordinator) (now : Nat) : Coordinator :=
  { c with top_fsm := (fsm_start c.top_fsm).1,
           mode_fsm := (fsm_start c.mode_fsm).1,
           menu_fsm := (fsm_start c.menu_fsm).1,
           last_activity := now % UINT32_MOD }

/-- Event-routing step of coordinator_update (the body of its
"if (event != EVT_NONE)" block): refresh the activity time while in
MENU, offer the event to the top FSM, and when the top FSM does not
consume it, offer it to the mode FSM in PERFORM or the menu FSM in
MENU. -/
def coordinator_route_event (c : Coordinator) (e : Eeprom) (event : Event)
    (now : Nat) : Coordinator × Eeprom :=
  let top_state := fsm_get_state c.top_fsm
  -- Reset menu timeout on any activity while in menu
  let c := if top_state = TOP_MENU then
             { c with last_activity := now % UINT32_MOD }
           else c
  let (handled, topf, acts) := fsm_process_event c.top_fsm event.toNat
  let c := { c with top_fsm := topf }
  let (c, e) := coord_run_actions acts c e now
  if handled then (c, e)
  else if top_state = TOP_PERFORM then
    let (_, modef, macts) := fsm_process_event c.mode_fsm event.toNat
    let c := { c with mode_fsm := modef }
    coord_run_actions macts c e now
  else
    let (_, menuf, macts) := fsm_process_event c.menu_fsm event.toNat
    let c := { c with menu_fsm := menuf }
    coord_run_actions macts c e now

/-- Menu-timeout step of coordinator_update: while in MENU, once
MENU_TIMEOUT_MS have elapsed since the last activity, inject the
synthetic timeout event into the top FSM. -/
def coordinator_check_timeout (c : Coordinator) (e : Eeprom) (now : Nat) :
    Coordinator × Eeprom :=
  if fsm_get_state c.top_fsm = TOP_MENU then
    if u32sub now c.last_activity ≥ MENU_TIMEOUT_MS then
      let (_, topf, acts) := fsm_process_event c.top_fsm
        Event.EVT_TIMEOUT.toNat
      let c := { c with top_fsm := topf }
      coord_run_actions acts c e now
    else (c, e)
  else (c, e)

/-- Mode-handler step of coordinator_update: compute the handler input
(in PERFORM, CV OR button B with B suppressed while A is held, plus
button A in gate mode with the manual gate-A setting; in MENU, CV only)
and run the active mode handler. -/
def coordinator_run_mode (c : Coordinator) (cv_state : Bool) (now : Nat) :
    Coordinator :=
  let mode := fsm_get_state c.mode_fsm
  let input_state :=
    if fsm_get_state c.top_fsm = TOP_PERFORM then
      let b_triggers := c.events.b_pressed && !c.events.a_pressed
      let base := cv_state || b_triggers
      if mode = MODE_GATE ∧
          (c.settings.map (fun s => s.gate_a_mode)).getD 0
            = GATE_A_MODE_MANUAL ∧ c.settings.isSome then
        base || c.events.a_pressed
      else base
    else
      cv_state
  let (ctx, out) := mode_handler_process mode c.mode_ctx input_state now
  { c with mode_ctx := ctx, output_state := out }

/-- coordinator_update from src/core/coordinator.c, one tick, assembled
from the steps above in source order.  rawA and rawB are the active-low
pin samples the HAL returns for the two buttons (true = high =
released), adc is the raw 8-bit CV sample, and now stands for every
p_hal->millis() read of the tick.  Note that the EventInput fed to the
event processor is built directly from the inverted raw samples; the
debounced-button component of lib/input/button.h is not on this path. -/
def coordinator_update (c : Coordinator) (e : Eeprom) (rawA rawB : Bool)
    (adc now : Nat) : Coordinator × Eeprom :=
  -- Read CV input via ADC and apply hysteresis
  let cvi := cv_input_update c.cv_input adc
  let cv_state := cvi.current_state
  let c := { c with cv_input := cvi }
  -- Build input state from HAL (buttons are active-low: pressed = LOW)
  let input : EventInput :=
    { button_a := !rawA, button_b := !rawB, cv_in := cv_state,
      current_time := now }
  -- Process input to get event
  let (event, ev) := event_processor_update c.events input
  let c := { c with events := ev }
  -- Route event to appropriate FSM based on current top-level state
  let (c, e) :=
    if event ≠ Event.EVT_NONE then coordinator_route_event c e event now
    else (c, e)
  -- Check menu timeout
  let (c, e) := coordinator_check_timeout c e now
  -- Run the active mode handler
  (coordinator_run_mode c cv_state now, e)

/-- The event-processor input of the k-th millisecond tick of the solo
A-hold gesture starting at time t: A pressed on ticks 0..599, released at
tick 600, B never pressed, CV low. -/
def solo_input (t k : Nat) : EventInput :=
  { button_a := decide (k < 600), button_b := false, cv_in := false,
    current_time := t + k }

/-- One-millisecond tick inputs for the solo A-hold gesture of spec
section 8: A pressed from tick t through tick t+599, released at t+600,
B never pressed, CV low. -/
def solo_hold_inputs (t : Nat) : List EventInput :=
  (List.range 601).map (solo_input t)

/-- Event-processor state reached after the A-press tick of the solo-hold
gesture (press time t, hold not yet latched). -/
def ep_state_held (t : Nat) : EventProcessor :=
  { event_processor_init with a_pressed := true, a_last := true,
                              a_press_time := t }

/-- Event-processor state after the hold threshold has latched. -/
def ep_state_latched (t : Nat) : EventProcessor :=
  { ep_state_held t with a_hold := true }

/-- Event-processor state after the release tick of the solo-hold
gesture. -/
def ep_state_released (t : Nat) : EventProcessor :=
  { event_processor_init with a_press_time := t }

/-- Per-tick trigger input for the retrigger scenario of spec section 8:
input rises at tick 1000, falls at 1002, rises again at 1005 while the
10 ms pulse begun at 1000 is still high, and stays high through 1010. -/
def trigger_retrigger_inputs : List (Bool × Nat) :=
  [(true, 1000), (true, 1001), (false, 1002), (false, 1003), (false, 1004),
   (true, 1005), (true, 1006), (true, 1007), (true, 1008), (true, 1009),
   (true, 1010)]

/-- The started top FSM sitting in the MENU state (tables exactly as in
coordinator.c). -/
def top_fsm_in_menu : FSM CoordAction :=
  { fsm_init top_states top_transitions TOP_PERFORM with
      current_state := TOP_MENU, active := true }

/-- The started menu FSM at its initial page. -/
def menu_fsm_started : FSM CoordAction :=
  { fsm_init menu_states menu_transitions PAGE_GATE_CV with active := true }

/-- A coordinator as coordinator_init/start build it at boot with the
defaults record, in PERFORM. -/
def coordinator_performing : Coordinator :=
  coordinator_start (coordinator_init (some app_init_get_defaults)) 0

/-- The boot coordinator moved to MENU with button A held since tick 0
(the event-processor state reached one tick after a solo A press); at
tick 500 the next update produces the solo A-hold event. -/
def coordinator_menu_holding_a : Coordinator :=
  { coordinator_performing with
      top_fsm := { coordinator_performing.top_fsm with
                     current_state := TOP_MENU },
      events := ep_state_held 0 }

/-- A debounced button whose previous rising edge was at tick 1000 and
which is currently released and debounced-low. -/
def button_after_recent_rise : Button :=
  { button_reset with last_rise_time := 1000 }

/-- An EEPROM image with every byte erased to 0xFF (cleared store). -/
def cleared_eeprom : Eeprom := fun _ => 255

/-- An arbitrary concrete prior EEPROM image for round-trip witnesses. -/
def zero_eeprom : Eeprom := fun _ => 0

/-- A concrete settings record with every field strictly inside its
bound. -/
def sample_settings : AppSettings :=
  { mode := 1, trigger_pulse_idx := 2, trigger_edge := 1,
    divide_divisor_idx := 3, cycle_tempo_idx := 4, toggle_edge := 1,
    gate_a_mode := 1, reserved := 7 }

lemma u32sub_no_wrap {a b : Nat} (hba : b ≤ a) (ha : a < UINT32_MOD) :
    u32sub a b = a - b := by
  have hb : b < UINT32_MOD := lt_of_le_of_lt hba ha
  unfold u32sub
  rw [Nat.mod_eq_of_lt ha, Nat.mod_eq_of_lt hb]
  have h1 : a + UINT32_MOD - b = (a - b) + UINT32_MOD := by omega
  rw [h1, Nat.add_mod_right, Nat.mod_eq_of_lt (by omega)]

lemma u32sub_same_mod (now : Nat) : u32sub now (now % UINT32_MOD) = 0 := by
  have hm : now % UINT32_MOD < UINT32_MOD :=
    Nat.mod_lt _ (by norm_num [UINT32_MOD])
  unfold u32sub
  rw [Nat.mod_eq_of_lt hm]
  have h1 : now % UINT32_MOD + UINT32_MOD - now % UINT32_MOD = UINT32_MOD := by
    omega
  rw [h1, Nat.mod_self]

/-- C6: for every hysteresis state with low threshold below high
threshold and every sample, a low level flips to high exactly when the
sample is strictly greater than the high threshold, a high level flips
to low exactly when the sample is strictly less than the low threshold,
and otherwise the level is retained; and the concrete sample sequence of
the spec scenario produces exactly the expected level sequence from the
default-initialized state. -/
theorem cv_hysteresis_flips_exactly_at_thresholds (cv : CVInput) (adc : Nat)
    (h : cv.low_threshold < cv.high_threshold) :
    ((cv.current_state = true →
        ((cv_input_update cv adc).current_state = false ↔
          adc < cv.low_threshold)) ∧
     (cv.current_state = false →
        ((cv_input_update cv adc).current_state = true ↔
          adc > cv.high_threshold))) ∧
    cv_input_run cv_input_init [100, 120, 128, 129, 80, 78, 77, 76, 128] =
      [false, false, false, true, true, true, true, false, false] := by
  refine ⟨⟨?_, ?_⟩, by decide⟩
  · intro hc
    unfold cv_input_update
    rw [hc]
    by_cases hlt : adc < cv.low_threshold <;> simp [hlt, hc]
  · intro hc
    unfold cv_input_update
    rw [hc]
    by_cases hgt : adc > cv.high_threshold <;> simp [hgt, hc]

/-- Witness for the hysteresis theorem at the default thresholds and the
sample 129 (one above the high threshold). -/
theorem cv_hysteresis_flips_witness :
    cv_input_init.low_threshold < cv_input_init.high_threshold ∧
    (((cv_input_init.current_state = true →
        ((cv_input_update cv_input_init 129).current_state = false ↔
          (129 : Nat) < cv_input_init.low_threshold)) ∧
      (cv_input_init.current_state = false →
        ((cv_input_update cv_input_init 129).current_state = true ↔
          (129 : Nat) > cv_input_init.high_threshold))) ∧
     cv_input_run cv_input_init [100, 120, 128, 129, 80, 78, 77, 76, 128] =
       [false, false, false, true, true, true, true, false, false]) :=
  ⟨by decide, cv_hysteresis_flips_exactly_at_thresholds cv_input_init 129
    (by decide)⟩

lemma button_has_falling_edge_rise (b : Button) (now : Nat) :
    (button_has_falling_edge b now).2.rise = b.rise := by
  unfold button_has_falling_edge
  split_ifs <;> rfl

lemma button_detect_config_action_rise (b : Button) (now : Nat) :
    (button_detect_config_action b now).2.rise = b.rise := by
  unfold button_detect_config_action
  dsimp only
  simp only [apply_ite Prod.snd, apply_ite Button.rise, ite_self]

/-- C9 (amended): the debounced button asserts a rising edge exactly when
the raw sample is pressed (active-low pin read low), the previous
cycle's debounced-pressed bit was cleared, and strictly more than
EDGE_DEBOUNCE_MS (5 ms) of 32-bit timer difference have elapsed since
the previous rising edge. -/
theorem button_rising_edge_iff (b : Button) (rawPin : Bool) (now : Nat) :
    (button_update b rawPin now).rise =
      (!rawPin && !b.last &&
        decide (u32sub now b.last_rise_time > EDGE_DEBOUNCE_MS)) := by
  by_cases h1 : (!rawPin && !b.last) = true <;>
    by_cases h2 : u32sub now b.last_rise_time > EDGE_DEBOUNCE_MS <;>
      simp [button_update, button_has_rising_edge, h1, h2,
        button_detect_config_action_rise, button_has_falling_edge_rise,
        apply_ite Prod.snd, apply_ite Button.rise, ite_self]

/-- C9 counterexample: a clean press arriving when exactly 5 ms have
elapsed since the previous rising edge (raw pressed, previous debounced
bit cleared) is NOT asserted — the guard in button_has_rising_edge is
strictly greater-than, so the claimed at-least-5-ms boundary fails. -/
theorem button_rising_edge_at_exactly_5ms_suppressed :
    u32sub 5 button_reset.last_rise_time = EDGE_DEBOUNCE_MS ∧
    button_reset.last = false ∧
    (button_update button_reset false 5).rise = false ∧
    (button_update button_reset false 5).pressed = false ∧
    (button_update button_reset false 6).rise = true := by decide

/-- C2 counterexample: in the spec scenario (10 ms pulse, rising edge at
tick 1000, input back low at 1002) a second rising edge at tick 1005 —
while the pulse begun at 1000 is still high — re-latches the pulse, so
the output is still high at tick 1010 where the claim requires it to be
low regardless of input edges before 1010. -/
theorem trigger_pulse_retrigger_extends_output :
    cv_output_run cv_output_init trigger_retrigger_inputs =
      [true, true, true, true, true, true, true, true, true, true, true] ∧
    ¬ ((cv_output_run cv_output_init trigger_retrigger_inputs).getLast? =
        some false) := by decide

/-- C2 (amended): a rising edge of the input always re-latches
pulse_start to the current time and drives the output high, even while a
pulse is still active; on ticks without a rising edge the pulse start is
untouched and the output goes low exactly when the pulse flag is set and
the pulse duration has elapsed since the most recent rising edge. -/
theorem trigger_pulse_restart_on_rising_edge (cv : CVOutput) (input : Bool)
    (now : Nat) :
    (input = true ∧ cv.last_in = false →
      ((cv_output_update_pulse cv input now).2.pulse_start = now % UINT32_MOD ∧
       (cv_output_update_pulse cv input now).1 = true ∧
       (cv_output_update_pulse cv input now).2.pulse = true)) ∧
    (¬ (input = true ∧ cv.last_in = false) →
      ((cv_output_update_pulse cv input now).2.pulse_start = cv.pulse_start ∧
       (cv_output_update_pulse cv input now).1 =
         (if cv.pulse ∧ u32sub now cv.pulse_start ≥ PULSE_DURATION_MS then
            false
          else cv.state))) := by
  constructor
  · rintro ⟨hi, hl⟩
    have hz := u32sub_same_mod now
    simp [cv_output_update_pulse, hi, hl, hz, PULSE_DURATION_MS]
  · intro hn
    have he : (input && !cv.last_in) = false := by
      cases input <;> cases h : cv.last_in <;> simp_all
    by_cases hp : cv.pulse = true <;>
      by_cases hd : u32sub now cv.pulse_start ≥ PULSE_DURATION_MS <;>
        simp [cv_output_update_pulse, he, hp, hd]

/-- Witness for the pulse-restart theorem: a rising edge from the reset
state at tick 7 latches pulse_start = 7 and raises the output, and a
non-edge tick on a state with no active pulse keeps the output low. -/
theorem trigger_pulse_restart_witness :
    ((true = true ∧ cv_output_init.last_in = false) ∧
      ((cv_output_update_pulse cv_output_init true 7).2.pulse_start =
         7 % UINT32_MOD ∧
       (cv_output_update_pulse cv_output_init true 7).1 = true ∧
       (cv_output_update_pulse cv_output_init true 7).2.pulse = true)) ∧
    (¬ (false = true ∧ cv_output_init.last_in = false) ∧
      ((cv_output_update_pulse cv_output_init false 7).2.pulse_start =
         cv_output_init.pulse_start ∧
       (cv_output_update_pulse cv_output_init false 7).1 =
         (if cv_output_init.pulse ∧
              u32sub 7 cv_output_init.pulse_start ≥ PULSE_DURATION_MS then
            false
          else cv_output_init.state))) :=
  ⟨⟨by decide,
    (trigger_pulse_restart_on_rising_edge cv_output_init true 7).1
      (by decide)⟩,
   ⟨by decide,
    (trigger_pulse_restart_on_rising_edge cv_output_init false 7).2
      (by decide)⟩⟩

/-- C8: in any event-processor update in which A transitions from pressed
(previous-state bit set) to not pressed, the compound-fired flag after
the call is cleared exactly when B is not pressed at the end of the call,
and keeps its prior value when B is still pressed. -/
theorem a_release_clears_compound_iff_b_released (ep : EventProcessor)
    (input : EventInput) (hlast : ep.a_last = true)
    (ha : input.button_a = false) :
    (event_processor_update ep input).2.compound_fired =
      (input.button_b && ep.compound_fired) := by
  cases hb : input.button_b <;>
    cases hbl : ep.b_last <;>
      simp [event_processor_update, hlast, ha, hb, hbl] <;>
        split_ifs <;> simp_all

/-- Witness for the compound-flag invariant: releasing A with B still
pressed keeps a previously set compound flag; releasing A with B
released clears it. -/
theorem a_release_clears_compound_witness :
    ({ ep_state_latched 0 with compound_fired := true }.a_last = true ∧
     (⟨false, true, false, 600⟩ : EventInput).button_a = false ∧
     (event_processor_update
        { ep_state_latched 0 with compound_fired := true }
        ⟨false, true, false, 600⟩).2.compound_fired =
       ((⟨false, true, false, 600⟩ : EventInput).button_b &&
         { ep_state_latched 0 with compound_fired := true }.compound_fired)) ∧
    ((event_processor_update
        { ep_state_latched 0 with compound_fired := true }
        ⟨false, false, false, 600⟩).2.compound_fired =
       ((⟨false, false, false, 600⟩ : EventInput).button_b &&
         { ep_state_latched 0 with compound_fired := true }.compound_fired)) :=
  ⟨⟨by decide, by decide,
    a_release_clears_compound_iff_b_released
      { ep_state_latched 0 with compound_fired := true }
      ⟨false, true, false, 600⟩ (by decide) (by decide)⟩,
   a_release_clears_compound_iff_b_released
      { ep_state_latched 0 with compound_fired := true }
      ⟨false, false, false, 600⟩ (by decide) (by decide)⟩

set_option maxRecDepth 10000

lemma ep_step_press (t : Nat) (ht : t < UINT32_MOD) :
    event_processor_update event_processor_init ⟨true, false, false, t⟩ =
      (Event.EVT_A_PRESS, ep_state_held t) := by
  simp [event_processor_update, event_processor_init, ep_state_held,
    Nat.mod_eq_of_lt ht]

lemma ep_step_wait (t k : Nat) (hk : k < 500) (hM : t + k < UINT32_MOD) :
    event_processor_update (ep_state_held t) ⟨true, false, false, t + k⟩ =
      (Event.EVT_NONE, ep_state_held t) := by
  have h1 : u32sub (t + k) t = k := by
    rw [u32sub_no_wrap (Nat.le_add_right t k) hM]
    omega
  have h2 : ¬ k ≥ EP_HOLD_THRESHOLD_MS := by
    norm_num [EP_HOLD_THRESHOLD_MS]
    omega
  simp [event_processor_update, ep_state_held, event_processor_init, h1, h2]

lemma ep_step_latch (t k : Nat) (hk : 500 ≤ k) (hM : t + k < UINT32_MOD) :
    event_processor_update (ep_state_held t) ⟨true, false, false, t + k⟩ =
      (Event.EVT_A_HOLD, ep_state_latched t) := by
  have h1 : u32sub (t + k) t = k := by
    rw [u32sub_no_wrap (Nat.le_add_right t k) hM]
    omega
  have h2 : k ≥ EP_HOLD_THRESHOLD_MS := by
    norm_num [EP_HOLD_THRESHOLD_MS]
    omega
  simp [event_processor_update, ep_state_held, ep_state_latched,
    event_processor_init, h1, h2]

lemma ep_step_hold (t x : Nat) :
    event_processor_update (ep_state_latched t) ⟨true, false, false, x⟩ =
      (Event.EVT_NONE, ep_state_latched t) := by
  simp [event_processor_update, ep_state_latched, ep_state_held,
    event_processor_init]

lemma ep_step_release (t x : Nat) :
    event_processor_update (ep_state_latched t) ⟨false, false, false, x⟩ =
      (Event.EVT_MODE_NEXT, ep_state_released t) := by
  simp [event_processor_update, ep_state_latched, ep_state_held,
    ep_state_released, event_processor_init]

lemma ep_run_single {ep ep1 : EventProcessor} {i : EventInput} {e : Event}
    (h : event_processor_update ep i = (e, ep1)) :
    ep_run ep [i] = ([e], ep1) := by
  simp [ep_run, h]

lemma ep_run_chain {l1 l2 : List EventInput} {ep ep1 ep2 : EventProcessor}
    {ev1 ev2 : List Event} (h1 : ep_run ep l1 = (ev1, ep1))
    (h2 : ep_run ep1 l2 = (ev2, ep2)) :
    ep_run ep (l1 ++ l2) = (ev1 ++ ev2, ep2) := by
  induction l1 generalizing ep ev1 ep1 with
  | nil =>
    simp only [ep_run] at h1
    injection h1 with hev hep
    subst hev
    subst hep
    simpa using h2
  | cons i is ih =>
    rcases hu : event_processor_update ep i with ⟨e, epa⟩
    rcases hr : ep_run epa is with ⟨es, epb⟩
    simp only [ep_run, hu, hr] at h1
    injection h1 with hev hep
    subst hev
    subst hep
    simp only [List.cons_append, ep_run, hu, List.append_eq, ih hr h2]

lemma ep_seg_wait (t : Nat) (hM : t + 500 < UINT32_MOD) :
    ∀ (n j : Nat), j + n ≤ 500 →
    ep_run (ep_state_held t) ((List.range' j n).map (solo_input t)) =
      (List.replicate n Event.EVT_NONE, ep_state_held t) := by
  intro n
  induction n with
  | zero => intro j hj; simp [ep_run]
  | succ n ih =>
    intro j hj
    rw [List.range'_succ]
    simp only [List.map_cons]
    have hdj : solo_input t j = ⟨true, false, false, t + j⟩ := by
      simp [solo_input]
      omega
    rw [hdj]
    have hstep := ep_step_wait t j (by omega) (by omega)
    have hrest := ih (j + 1) (by omega)
    simp only [ep_run, hstep, hrest, List.replicate_succ]

lemma ep_seg_hold (t : Nat) :
    ∀ (n j : Nat), j + n ≤ 600 →
    ep_run (ep_state_latched t) ((List.range' j n).map (solo_input t)) =
      (List.replicate n Event.EVT_NONE, ep_state_latched t) := by
  intro n
  induction n with
  | zero => intro j hj; simp [ep_run]
  | succ n ih =>
    intro j hj
    rw [List.range'_succ]
    simp only [List.map_cons]
    have hdj : solo_input t j = ⟨true, false, false, t + j⟩ := by
      simp [solo_input]
      omega
    rw [hdj]
    have hstep := ep_step_hold t (t + j)
    have hrest := ih (j + 1) (by omega)
    simp only [ep_run, hstep, hrest, List.replicate_succ]

lemma solo_hold_run (t : Nat) (hM : t + 600 < UINT32_MOD) :
    ep_run event_processor_init (solo_hold_inputs t) =
      (((([Event.EVT_A_PRESS] ++ List.replicate 499 Event.EVT_NONE)
        ++ [Event.EVT_A_HOLD]) ++ List.replicate 99 Event.EVT_NONE)
        ++ [Event.EVT_MODE_NEXT], ep_state_released t) := by
  have hdec : List.range 601 =
      ((([0] ++ List.range' 1 499) ++ [500]) ++ List.range' 501 99)
        ++ [600] := by decide
  have h0 : solo_input t 0 = ⟨true, false, false, t⟩ := by
    simp [solo_input]
  have h500 : solo_input t 500 = ⟨true, false, false, t + 500⟩ := by
    simp [solo_input]
  have h600 : solo_input t 600 = ⟨false, false, false, t + 600⟩ := by
    simp [solo_input]
  unfold solo_hold_inputs
  rw [hdec]
  simp only [List.map_append, List.map_cons, List.map_nil, h0, h500, h600]
  exact ep_run_chain (ep_run_chain (ep_run_chain (ep_run_chain
    (ep_run_single (ep_step_press t (by omega)))
    (ep_seg_wait t (by omega) 499 1 (by omega)))
    (ep_run_single (ep_step_latch t 500 (by omega) (by omega))))
    (ep_seg_hold t 99 501 (by omega)))
    (ep_run_single (ep_step_release t (t + 600)))

lemma solo_hold_nonnone (t : Nat) (hM : t + 600 < UINT32_MOD) :
    ((ep_run event_processor_init (solo_hold_inputs t)).1).filter
        (fun e => e ≠ Event.EVT_NONE) =
      [Event.EVT_A_PRESS, Event.EVT_A_HOLD, Event.EVT_MODE_NEXT] := by
  rw [solo_hold_run t hM]
  simp [List.filter_append, List.filter_replicate]


/-- C7 counterexample: in the concrete solo-hold run starting at tick
1000 (A pressed 1000..1599, released at 1600, B never pressed) the
non-none events are A-press, A-hold, mode-next — not just A-press
followed by mode-next as the claim states. -/
theorem solo_hold_trace_not_two_events :
    ¬ (((ep_run event_processor_init (solo_hold_inputs 1000)).1).filter
         (fun e => e ≠ Event.EVT_NONE) =
       [Event.EVT_A_PRESS, Event.EVT_MODE_NEXT]) := by
  rw [solo_hold_nonnone 1000 (by norm_num [UINT32_MOD])]
  decide

/-- C7 (amended): starting from a reset event processor, if A becomes
pressed at time t, stays pressed past the 500 ms hold threshold, and is
released at t+600 ms with B never pressed (and the timestamps do not
wrap), the non-none events emitted over those ticks are exactly A-press,
then A-hold at the hold threshold, then mode-next on release — in
particular neither A-tap nor A-release. -/
theorem solo_hold_emits_press_hold_modenext (t : Nat)
    (hM : t + 600 < UINT32_MOD) :
    ((ep_run event_processor_init (solo_hold_inputs t)).1).filter
        (fun e => e ≠ Event.EVT_NONE) =
      [Event.EVT_A_PRESS, Event.EVT_A_HOLD, Event.EVT_MODE_NEXT] :=
  solo_hold_nonnone t hM

/-- Witness for the solo-hold trace theorem at t = 1000. -/
theorem solo_hold_emits_press_hold_modenext_witness :
    1000 + 600 < UINT32_MOD ∧
    ((ep_run event_processor_init (solo_hold_inputs 1000)).1).filter
        (fun e => e ≠ Event.EVT_NONE) =
      [Event.EVT_A_PRESS, Event.EVT_A_HOLD, Event.EVT_MODE_NEXT] :=
  ⟨by norm_num [UINT32_MOD],
   solo_hold_emits_press_hold_modenext 1000 (by norm_num [UINT32_MOD])⟩

lemma settings_in_range_bounds {s : AppSettings}
    (h : settings_in_range s = true) :
    s.mode < 5 ∧ s.trigger_pulse_idx < 4 ∧ s.trigger_edge < 3 ∧
    s.divide_divisor_idx < 4 ∧ s.cycle_tempo_idx < 5 ∧ s.toggle_edge < 2 ∧
    s.gate_a_mode < 2 := by
  simp [settings_in_range, settings_bytes, SETTINGS_LIMITS, MODE_COUNT,
    TRIGGER_PULSE_COUNT, TRIGGER_EDGE_COUNT, DIVIDE_DIVISOR_COUNT,
    CYCLE_TEMPO_COUNT, TOGGLE_EDGE_COUNT, GATE_A_MODE_COUNT] at h
  tauto

lemma calculate_checksum_lt {s : AppSettings}
    (h : settings_in_range s = true) (hr : s.reserved < 256) :
    calculate_checksum s < 256 := by
  obtain ⟨h1, h2, h3, h4, h5, h6, h7⟩ := settings_in_range_bounds h
  have h256 : (256 : Nat) = 2 ^ 8 := by norm_num
  unfold calculate_checksum settings_bytes
  simp only [List.foldl]
  rw [h256]
  repeat apply Nat.xor_lt_two_pow
  all_goals omega

lemma settings_from_after_save (s : AppSettings) (e : Eeprom)
    (hv : settings_in_range s = true) (hr : s.reserved < 256) :
    settings_from_eeprom (app_init_save_settings e s) = s := by
  obtain ⟨h1, h2, h3, h4, h5, h6, h7⟩ := settings_in_range_bounds hv
  obtain ⟨m, tp, te, dd, ct, tg, ga, rv⟩ := s
  simp only [AppSettings.mode] at h1
  simp [settings_from_eeprom, app_init_save_settings, settings_bytes,
    eeprom_write_bytes, eeprom_write_word, eeprom_write_byte,
    eeprom_read_byte, EEPROM_SETTINGS_ADDR, EEPROM_MAGIC_ADDR,
    EEPROM_SCHEMA_ADDR, EEPROM_CHECKSUM_ADDR, UINT8_MOD] at h1 h2 h3 h4 h5 h6 h7 hr ⊢
  refine ⟨?_, ?_, ?_, ?_, ?_, ?_, ?_, ?_⟩ <;> omega

lemma load_after_save (s : AppSettings) (e : Eeprom)
    (hv : settings_in_range s = true) (hr : s.reserved < 256) :
    load_settings (app_init_save_settings e s) = some s := by
  have hcs := calculate_checksum_lt hv hr
  have hsf := settings_from_after_save s e hv hr
  have hmagic :
      eeprom_read_word (app_init_save_settings e s) EEPROM_MAGIC_ADDR =
        EEPROM_MAGIC_VALUE := by
    simp [eeprom_read_word, eeprom_read_byte, app_init_save_settings,
      settings_bytes, eeprom_write_bytes, eeprom_write_word,
      eeprom_write_byte, EEPROM_SETTINGS_ADDR, EEPROM_MAGIC_ADDR,
      EEPROM_SCHEMA_ADDR, EEPROM_CHECKSUM_ADDR, EEPROM_MAGIC_VALUE,
      UINT8_MOD]
  have hschema :
      eeprom_read_byte (app_init_save_settings e s) EEPROM_SCHEMA_ADDR =
        SETTINGS_SCHEMA_VERSION := by
    simp [eeprom_read_byte, app_init_save_settings, settings_bytes,
      eeprom_write_bytes, eeprom_write_word, eeprom_write_byte,
      EEPROM_SETTINGS_ADDR, EEPROM_MAGIC_ADDR, EEPROM_SCHEMA_ADDR,
      EEPROM_CHECKSUM_ADDR, SETTINGS_SCHEMA_VERSION, UINT8_MOD]
  have hck :
      eeprom_read_byte (app_init_save_settings e s) EEPROM_CHECKSUM_ADDR =
        calculate_checksum s := by
    simp [eeprom_read_byte, app_init_save_settings, settings_bytes,
      eeprom_write_bytes, eeprom_write_word, eeprom_write_byte,
      EEPROM_SETTINGS_ADDR, EEPROM_MAGIC_ADDR, EEPROM_SCHEMA_ADDR,
      EEPROM_CHECKSUM_ADDR, UINT8_MOD, Nat.mod_eq_of_lt hcs]
  simp [load_settings, hmagic, hschema, hck, hsf, hv]

lemma check_factory_reset_false (ta a b : Bool)
    (h : a = false ∨ b = false) :
    app_init_check_factory_reset ta a b = false := by
  rcases h with rfl | rfl <;> cases ta <;>
    simp [app_init_check_factory_reset] <;> cases a <;> simp

lemma load_settings_in_range {e : Eeprom} {s : AppSettings}
    (h : load_settings e = some s) : settings_in_range s = true := by
  unfold load_settings at h
  dsimp only at h
  split_ifs at h with h1 h2 h3 h4 <;>
    first
    | exact Option.noConfusion h
    | (injection h with h5
       subst h5
       simpa using h4)

/-- C4: saving a settings record whose seven validated fields are in
range and then running the startup load path (with the factory-reset
gesture inactive because at least one button is released) returns result
code ok with a byte-for-byte equal record; and the load path on a
cleared all-0xFF store returns ok-defaults with the defaults record. -/
theorem save_then_load_round_trip (s : AppSettings) (e : Eeprom)
    (ta a b : Bool) (hv : settings_in_range s = true)
    (hr : s.reserved < 256) (hb : a = false ∨ b = false) :
    ((app_init_run (app_init_save_settings e s) ta a b).1 =
        AppInitResult.APP_INIT_OK ∧
     (app_init_run (app_init_save_settings e s) ta a b).2.1 = s) ∧
    ((app_init_run cleared_eeprom ta a b).1 =
        AppInitResult.APP_INIT_OK_DEFAULTS ∧
     (app_init_run cleared_eeprom ta a b).2.1 = app_init_get_defaults) := by
  have hc := check_factory_reset_false ta a b hb
  have hload := load_after_save s e hv hr
  have hcleared : load_settings cleared_eeprom = none := by decide
  simp [app_init_run, hc, hload, hcleared]

/-- Witness for the round-trip theorem: a concrete in-range record saved
over a zeroed store loads back as ok, and the cleared store loads
defaults. -/
theorem save_then_load_round_trip_witness :
    settings_in_range sample_settings = true ∧
    sample_settings.reserved < 256 ∧
    (((app_init_run (app_init_save_settings zero_eeprom sample_settings)
          true true false).1 = AppInitResult.APP_INIT_OK ∧
      (app_init_run (app_init_save_settings zero_eeprom sample_settings)
          true true false).2.1 = sample_settings) ∧
     ((app_init_run cleared_eeprom true true false).1 =
         AppInitResult.APP_INIT_OK_DEFAULTS ∧
      (app_init_run cleared_eeprom true true false).2.1 =
        app_init_get_defaults)) :=
  ⟨by decide, by decide,
   save_then_load_round_trip sample_settings zero_eeprom true true false
     (by decide) (by decide) (Or.inr rfl)⟩

/-- C5: the loader succeeds exactly when magic, schema, checksum and the
per-field range checks all pass; the record produced by load-or-default
always has every validated field strictly below its bound; and when the
loader fails (and no factory reset runs) the startup installs the
defaults record with result ok-defaults. -/
theorem load_validation_levels :
    (∀ e : Eeprom, (load_settings e).isSome = true ↔
      (eeprom_read_word e EEPROM_MAGIC_ADDR = EEPROM_MAGIC_VALUE ∧
       eeprom_read_byte e EEPROM_SCHEMA_ADDR = SETTINGS_SCHEMA_VERSION ∧
       eeprom_read_byte e EEPROM_CHECKSUM_ADDR =
         calculate_checksum (settings_from_eeprom e) ∧
       settings_in_range (settings_from_eeprom e) = true)) ∧
    (∀ (e : Eeprom) (ta a b : Bool),
       settings_in_range (app_init_run e ta a b).2.1 = true) ∧
    (∀ (e : Eeprom) (ta a b : Bool),
       app_init_check_factory_reset ta a b = false →
       load_settings e = none →
       (app_init_run e ta a b).1 = AppInitResult.APP_INIT_OK_DEFAULTS ∧
       (app_init_run e ta a b).2.1 = app_init_get_defaults) := by
  refine ⟨?_, ?_, ?_⟩
  · intro e
    unfold load_settings
    by_cases h1 : eeprom_read_word e EEPROM_MAGIC_ADDR = EEPROM_MAGIC_VALUE <;>
      by_cases h2 : eeprom_read_byte e EEPROM_SCHEMA_ADDR =
          SETTINGS_SCHEMA_VERSION <;>
        by_cases h3 : eeprom_read_byte e EEPROM_CHECKSUM_ADDR =
            calculate_checksum (settings_from_eeprom e) <;>
          by_cases h4 : settings_in_range (settings_from_eeprom e) = true <;>
            simp_all
  · intro e ta a b
    by_cases hc : app_init_check_factory_reset ta a b = true
    · simp [app_init_run, hc]
      decide
    · rcases hl : load_settings e with _ | s
      · simp [app_init_run, hc, hl]
        decide
      · simp [app_init_run, hc, hl, load_settings_in_range hl]
  · intro e ta a b hc hl
    simp [app_init_run, hc, hl]

/-- Witness for the validation theorem: the cleared store fails the magic
check and the startup installs defaults. -/
theorem load_validation_levels_witness :
    app_init_check_factory_reset true false false = false ∧
    load_settings cleared_eeprom = none ∧
    ((app_init_run cleared_eeprom true false false).1 =
        AppInitResult.APP_INIT_OK_DEFAULTS ∧
     (app_init_run cleared_eeprom true false false).2.1 =
       app_init_get_defaults) :=
  ⟨by decide, by decide,
   load_validation_levels.2.2 cleared_eeprom true false false (by decide)
     (by decide)⟩


/-- C1: the top FSM transition table of coordinator.c has NO
(MENU, A-hold) entry.  Delivering the solo A-hold event with the top FSM
in MENU matches no transition (top or menu), runs no action, and leaves
the state MENU; the subsequent mode-next event on release likewise does
nothing in MENU.  A full coordinator_update tick in MENU at the hold
threshold therefore stays in MENU — contradicting the claim, the repo's
own coordinator tests (TestMenuExitsOnAHold) and its architecture
documentation, which require the menu to exit on a solo A-hold. -/
theorem top_table_lacks_menu_ahold_transition :
    top_transitions.all (fun t =>
        !(t.from_state = TOP_MENU && t.event = Event.EVT_A_HOLD.toNat)) =
      true ∧
    fsm_process_event top_fsm_in_menu Event.EVT_A_HOLD.toNat =
      (false, top_fsm_in_menu, []) ∧
    fsm_process_event menu_fsm_started Event.EVT_A_HOLD.toNat =
      (false, menu_fsm_started, []) ∧
    fsm_process_event top_fsm_in_menu Event.EVT_MODE_NEXT.toNat =
      (false, top_fsm_in_menu, []) ∧
    fsm_process_event menu_fsm_started Event.EVT_MODE_NEXT.toNat =
      (false, menu_fsm_started, []) ∧
    (coordinator_update coordinator_menu_holding_a cleared_eeprom
        false true 0 500).1.top_fsm.current_state = TOP_MENU := by decide

/-- C10: fsm_set_state always forces the current state to the requested
id — for every transition table and even for an id outside the declared
state set — and emits the old state's exit action and the new state's
entry action exactly when the FSM is active; the coordinator's
menu-entry page jump and its next-mode/next-page actions change FSM
state through this bypass. -/
theorem fsm_set_state_bypasses_tables :
    (∀ (α : Type) (f : FSM α) (s : Nat),
      (fsm_set_state f s).1 = { f with current_state := s } ∧
      (fsm_set_state f s).2 =
        (if f.active then
          (fsm_exit_action f f.current_state).toList
            ++ (fsm_entry_action f s).toList
         else [])) ∧
    (fsm_set_state top_fsm_in_menu 200).1.current_state = 200 ∧
    (∀ (c : Coordinator) (now : Nat),
      (action_enter_menu c now).menu_fsm =
        (fsm_set_state c.menu_fsm
          (mode_to_start_page (fsm_get_state c.mode_fsm))).1) ∧
    (∀ (c : Coordinator) (now : Nat),
      (action_next_mode c now).mode_fsm =
        (fsm_set_state c.mode_fsm
          ((fsm_get_state c.mode_fsm + 1) % MODE_COUNT)).1) ∧
    (∀ (c : Coordinator) (now : Nat),
      (action_next_page c now).menu_fsm =
        (fsm_set_state c.menu_fsm
          ((fsm_get_state c.menu_fsm + 1) % PAGE_COUNT)).1) :=
  ⟨fun α f s => ⟨rfl, rfl⟩, rfl, fun c now => rfl, fun c now => rfl,
   fun c now => rfl⟩


lemma coord_run_action_events (a : CoordAction) (c : Coordinator)
    (e : Eeprom) (now : Nat) :
    ((coord_run_action a c e now).1).events = c.events := by
  cases a <;>
    simp only [coord_run_action, action_enter_menu, action_exit_menu,
      action_next_mode, action_next_page, action_cycle_value] <;>
    (repeat' split) <;> rfl

lemma coord_run_actions_events :
    ∀ (l : List CoordAction) (c : Coordinator) (e : Eeprom) (now : Nat),
    ((coord_run_actions l c e now).1).events = c.events := by
  intro l
  induction l with
  | nil => intro c e now; rfl
  | cons a as ih =>
    intro c e now
    simp only [coord_run_actions]
    rw [ih]
    exact coord_run_action_events a c e now

lemma coordinator_route_event_events (c : Coordinator) (e : Eeprom)
    (event : Event) (now : Nat) :
    ((coordinator_route_event c e event now).1).events = c.events := by
  unfold coordinator_route_event
  dsimp only
  repeat'
    first
    | rw [coord_run_actions_events]
    | split
  all_goals simp [coord_run_actions_events]

lemma coordinator_check_timeout_events (c : Coordinator) (e : Eeprom)
    (now : Nat) :
    ((coordinator_check_timeout c e now).1).events = c.events := by
  unfold coordinator_check_timeout
  dsimp only
  repeat'
    first
    | rw [coord_run_actions_events]
    | split
  all_goals simp [coord_run_actions_events]

lemma coordinator_run_mode_events (c : Coordinator) (cv_state : Bool)
    (now : Nat) :
    (coordinator_run_mode c cv_state now).events = c.events := by
  unfold coordinator_run_mode
  dsimp only

/-- C3 (amended): the event-processor state after a coordinator tick is
exactly the one obtained by running the event processor on the raw HAL
pin samples inverted for active-low (plus the hysteresis output and the
tick time) — the debounced-button component is not on this path, so no
5 ms guard conditions what the event processor sees. -/
theorem coordinator_feeds_raw_buttons (c : Coordinator) (e : Eeprom)
    (rawA rawB : Bool) (adc now : Nat) :
    (coordinator_update c e rawA rawB adc now).1.events =
      (event_processor_update c.events
        { button_a := !rawA, button_b := !rawB,
          cv_in := (cv_input_update c.cv_input adc).current_state,
          current_time := now }).2 := by
  unfold coordinator_update
  dsimp only
  rw [coordinator_run_mode_events, coordinator_check_timeout_events]
  split <;> simp [coordinator_route_event_events]

/-- C3 counterexample: a raw press 3 ms after the previous rising edge is
suppressed by the debounced-button component (neither edge nor pressed
state), yet the same raw sample fed through coordinator_update reaches
the event processor, which registers A as pressed. -/
theorem raw_edge_inside_guard_reaches_event_processor :
    (button_update button_after_recent_rise false 1003).pressed = false ∧
    (button_update button_after_recent_rise false 1003).rise = false ∧
    (coordinator_update coordinator_performing cleared_eeprom
        false true 0 1003).1.events.a_pressed = true := by decide

end Gatekeeper
